import Mathlib

set_option linter.unusedVariables false

/-! Shallow embedding of the try-runtime offchain-worker replay harness
    (src/utils/frame/try-runtime/cli/src/commands/offchain_worker.rs).

    Pure data (storage keys and values, headers, version descriptors) is
    embedded as Lean data; the external collaborators of the command (the
    RPC client, the externalities builder, the chain spec, the wasm
    executor and the state-machine call) are passed in as an explicit
    environment of functions, so that the control flow of the command
    itself is embedded faithfully.  Rust panics (unwrap, todo) are
    modelled as a distinguished `panicked` outcome, separate from typed
    errors returned to the caller, and ambient logging is modelled as a
    list of emitted log events in the result. -/

abbrev StorageKey := List Nat

abbrev StorageValue := List Nat

/-- The reserved well-known storage key holding the runtime code blob,
    the byte string ":code" (sp_core::storage::well_known_keys::CODE). -/
def well_known_keys.CODE : StorageKey := [58, 99, 111, 100, 101]

/-- The in-memory externalities overlay: a mapping from storage key to
    storage value. -/
def Overlay := StorageKey → Option StorageValue

/-- Reading a key from the overlay (sp_io::storage::get inside
    TestExternalities::execute_with). -/
def Overlay.get (ov : Overlay) (k : StorageKey) : Option StorageValue := ov k

/-- Writing a key into the overlay (TestExternalities::insert). -/
def Overlay.insert (ov : Overlay) (k : StorageKey) (v : StorageValue) : Overlay :=
  fun k2 => if k2 = k then some v else ov k2

/-- Result of a Rust computation: a value, a typed error propagated to the
    caller with the question-mark operator, or a process abort raised by
    panic, unwrap on a None or Err value, or todo. -/
inductive Outcome (ε α : Type) where
  | ok : α → Outcome ε α
  | err : ε → Outcome ε α
  | panicked : String → Outcome ε α
  deriving DecidableEq

/-- Whether the outcome is a typed error returned to the caller. -/
def Outcome.isErr {ε α : Type} : Outcome ε α → Bool
  | .err _ => true
  | _ => false

/-- Whether the outcome is a panic (process abort). -/
def Outcome.isPanicked {ε α : Type} : Outcome ε α → Bool
  | .panicked _ => true
  | _ => false

/-- Typed errors of the command (sc_cli::Error), tagged by the collaborator
    that produced them. -/
inductive CliError where
  | parse : String → CliError
  | rpc : String → CliError
  | extBuild : String → CliError
  | exec : String → CliError
  deriving DecidableEq

inductive LogLevel where
  | error
  | info
  deriving DecidableEq

/-- One emitted log line; ambient log calls in the source are modelled as
    explicitly returned events. -/
structure LogEvent where
  level : LogLevel
  message : String
  deriving DecidableEq

/-- Modelled from the spec: the live state source of the State subcommand
    (defined in the CLI crate root, outside this fragment) carries the ws
    endpoint to fetch state from and an optional block reference. -/
structure LiveState where
  uri : String
  at_ : Option String
  deriving DecidableEq

/-- The state type subcommand: a live remote source or a snapshot file. -/
inductive State where
  | live : LiveState → State
  | snap : (snapshot_path : String) → State
  deriving DecidableEq

/-- Modelled from the spec: the shared runtime option of the CLI (defined
    in the crate root, outside this fragment): use the code already in the
    remote state, a code blob built from the local chain spec, or a blob
    read from an explicit path. -/
inductive Runtime where
  | local_
  | path : String → Runtime
  | remote
  deriving DecidableEq

/-- Modelled from the spec: the shared parameters of the CLI relevant to
    this command. -/
structure SharedParams where
  runtime : Runtime
  state_version : Nat
  deriving DecidableEq

/-- Configuration of the OffchainWorker command. -/
structure OffchainWorkerCmd where
  header_at : Option String
  header_ws_uri : Option String
  state : State
  deriving DecidableEq

/-- A block hash; block reference strings parse to hashes. -/
abbrev Hash := String

/-- Modelled from the spec: `hash_of` (in the CLI crate root, outside this
    fragment) parses a block-reference string into a block hash, returning
    a typed parse error on bad input.  Hashes are modelled as the reference
    strings themselves; the parse fails exactly on the empty string. -/
def hash_of (s : String) : Outcome CliError Hash :=
  if s.isEmpty then .err (.parse s) else .ok s

def headerAtLiveWarning : LogEvent :=
  ⟨.error, "--header-at is provided while state type is live, this will most likely lead to a nonsensical result."⟩

def headerUriLiveWarning : LogEvent :=
  ⟨.error, "--header-uri is provided while state type is live, this will most likely lead to a nonsensical result."⟩

def headerAtPanicMsg : String :=
  "either --header-at must be provided, or state must be live with a proper --at"

def headerWsUriPanicMsg : String :=
  "either --header-uri must be provided, or state must be live"

def todoPanicMsg : String := "not yet implemented"

def headerUnwrapErrMsg : String :=
  "called unwrap on an Err value while fetching the header"

def headerUnwrapNoneMsg : String :=
  "called unwrap on a None value while fetching the header"

def buildStorageUnwrapMsg : String :=
  "called unwrap on an Err value from build storage"

def chainSpecCodeUnwrapMsg : String :=
  "called unwrap on a None value, no code entry in the chain spec storage"

def readVersionUnwrapMsg : String :=
  "called unwrap on an Err value from read runtime version"

/-- OffchainWorkerCmd::header_at: resolve the header block reference, in
    priority order the explicit --header-at, else the at reference of a
    live state, else panic.  The pair carries the log events the source
    emits by side effect. -/
def OffchainWorkerCmd.headerAt (cmd : OffchainWorkerCmd) :
    List LogEvent × Outcome CliError Hash :=
  match cmd.header_at, cmd.state with
  | some header_at, State.snap _ => ([], hash_of header_at)
  | some header_at, State.live _ => ([headerAtLiveWarning], hash_of header_at)
  | none, State.live ⟨_, some a⟩ => ([], hash_of a)
  | _, _ => ([], .panicked headerAtPanicMsg)

/-- OffchainWorkerCmd::header_ws_uri: resolve the ws endpoint the header is
    fetched from, in priority order the explicit --header-uri, else the uri
    of a live state, else panic. -/
def OffchainWorkerCmd.headerWsUri (cmd : OffchainWorkerCmd) :
    List LogEvent × Outcome CliError String :=
  match cmd.header_ws_uri, cmd.state with
  | some u, State.snap _ => ([], .ok u)
  | some u, State.live _ => ([headerUriLiveWarning], .ok u)
  | none, State.live ⟨u, _⟩ => ([], .ok u)
  | none, State.snap _ => ([], .panicked headerWsUriPanicMsg)

/-- A block header as the command uses it: its number and its SCALE
    encoding (Header::number and Encode::encode). -/
structure BlockHeader where
  number : Nat
  encoded : List Nat
  deriving DecidableEq

/-- Modelled from the spec: the decoded runtime version descriptor
    (sc_cli::RuntimeVersion, defined outside this fragment): spec name,
    spec version and implementation version. -/
structure RuntimeVersion where
  spec_name : List Nat
  spec_version : Nat
  impl_version : Nat
  deriving DecidableEq

/-- Modelled from the spec: SCALE decoding of a version descriptor from
    raw bytes (parity_scale_codec, outside this fragment), as a fallible
    total function: a leading length byte, the name bytes, then the spec
    and implementation versions; fails on too-short input. -/
def RuntimeVersion.decode (bytes : List Nat) : Except String RuntimeVersion :=
  match bytes with
  | [] => .error "version descriptor decode failed, empty input"
  | n :: rest =>
    if n + 2 ≤ rest.length then
      .ok ⟨rest.take n, rest.getD n 0, rest.getD (n + 1) 0⟩
    else .error "version descriptor decode failed, input too short"

/-- The host capability set handed to the execution engine; the command
    always enables the full set. -/
inductive Extensions where
  | full
  deriving DecidableEq

/-- full_extensions from the CLI crate root: the full host capability set. -/
def full_extensions : Extensions := .full

/-- The request handed to state_machine_call: entry-point method name,
    encoded argument bytes and the enabled host capabilities. -/
structure ExecutionRequest where
  method : String
  data : List Nat
  extensions : Extensions
  deriving DecidableEq

/-- The external collaborators of the command, bundled as an environment:
    the chain spec of the node Configuration, the ws RPC client, the
    externalities builder of the state subcommand, genesis storage built
    from the chain spec, the executor operation reading a runtime version
    from a code blob, and the state-machine call running one entry point
    against the overlay. -/
structure Env where
  chainSpecName : String
  wsClient : String → Except String Unit
  chainHeader : String → Hash → Except String (Option BlockHeader)
  buildExt : State → Nat → Except String Overlay
  chainSpecBuildStorage : Except String Overlay
  read_runtime_version : StorageValue → Overlay → Except String (List Nat)
  state_machine_call : Overlay → String → List Nat → Extensions → Except String (List Nat)

/-- The match on shared.runtime choosing the code blob to overwrite with:
    Local takes the code entry of the chain spec genesis storage, unwrapping
    twice (panicking if building the storage fails or the entry is absent),
    Path is an unfinished todo panic, Remote substitutes nothing. -/
def resolveCodeToOverwrite (env : Env) (runtime : Runtime) :
    Outcome CliError (Option StorageValue) :=
  match runtime with
  | .local_ =>
    match env.chainSpecBuildStorage with
    | .error _ => .panicked buildStorageUnwrapMsg
    | .ok storage =>
      match storage.get well_known_keys.CODE with
      | none => .panicked chainSpecCodeUnwrapMsg
      | some code => .ok (some code)
  | .path _ => .panicked todoPanicMsg
  | .remote => .ok none

/-- The code substitution block: if a new code blob was chosen, read the
    original blob under the reserved key, insert the new blob, and when an
    original existed read and decode both version descriptors (the executor
    read is unwrapped, so its failure panics; the decode results are bound
    and unused, so their failure has no effect). -/
def substituteCode (env : Env) (ext : Overlay)
    (maybe_code_to_overwrite : Option StorageValue) : Outcome CliError Overlay :=
  match maybe_code_to_overwrite with
  | none => .ok ext
  | some new_code =>
    let maybe_original_code := ext.get well_known_keys.CODE
    let ext1 := ext.insert well_known_keys.CODE new_code
    match maybe_original_code with
    | none => .ok ext1
    | some old_code =>
      match env.read_runtime_version old_code ext1 with
      | .error _ => .panicked readVersionUnwrapMsg
      | .ok old_bytes =>
        match env.read_runtime_version new_code ext1 with
        | .error _ => .panicked readVersionUnwrapMsg
        | .ok new_bytes =>
          let _old_version := RuntimeVersion.decode old_bytes
          let _new_version := RuntimeVersion.decode new_bytes
          .ok ext1

def fetchedHeaderLog (uri : String) (n : Nat) : LogEvent :=
  ⟨.info, "fetched header from " ++ uri ++ ", block number " ++ toString n⟩

def replacingCodeLog (name : String) : LogEvent :=
  ⟨.info, "replacing the in-storage code with the local code from the chain spec of " ++ name⟩

def executedLog : LogEvent :=
  ⟨.info, "OffchainWorkerApi_offchain_worker executed without errors."⟩

/-- The observable outcome of one run of the command: the log events it
    emitted, the header fetches it performed over the RPC channel as
    endpoint and reference pairs, the execution requests it handed to
    state_machine_call, and its result. -/
structure DriverTrace where
  logs : List LogEvent
  headerFetches : List (String × Hash)
  invocations : List ExecutionRequest
  result : Outcome CliError Unit

/-- The offchain_worker command body: resolve the header reference and the
    header endpoint, open the ws channel (typed errors propagate), fetch
    the header (both the RPC error and the absent-block case are
    unwrapped, hence panic), build the externalities from the state
    subcommand, choose and substitute the code blob, then invoke
    OffchainWorkerApi_offchain_worker once with the encoded header and the
    full extension set. -/
def offchain_worker (env : Env) (shared : SharedParams)
    (command : OffchainWorkerCmd) : DriverTrace :=
  let l1 := (command.headerAt).1
  match (command.headerAt).2 with
  | .panicked m => ⟨l1, [], [], .panicked m⟩
  | .err e => ⟨l1, [], [], .err e⟩
  | .ok header_at =>
    let l2 := l1 ++ (command.headerWsUri).1
    match (command.headerWsUri).2 with
    | .panicked m => ⟨l2, [], [], .panicked m⟩
    | .err e => ⟨l2, [], [], .err e⟩
    | .ok header_ws_uri =>
      match env.wsClient header_ws_uri with
      | .error e => ⟨l2, [], [], .err (.rpc e)⟩
      | .ok _ =>
        match env.chainHeader header_ws_uri header_at with
        | .error _ => ⟨l2, [(header_ws_uri, header_at)], [], .panicked headerUnwrapErrMsg⟩
        | .ok none => ⟨l2, [(header_ws_uri, header_at)], [], .panicked headerUnwrapNoneMsg⟩
        | .ok (some header) =>
          let l3 := l2 ++ [fetchedHeaderLog header_ws_uri header.number]
          match env.buildExt command.state shared.state_version with
          | .error e => ⟨l3, [(header_ws_uri, header_at)], [], .err (.extBuild e)⟩
          | .ok ext =>
            match resolveCodeToOverwrite env shared.runtime with
            | .panicked m => ⟨l3, [(header_ws_uri, header_at)], [], .panicked m⟩
            | .err e => ⟨l3, [(header_ws_uri, header_at)], [], .err e⟩
            | .ok maybe_code_to_overwrite =>
              let l4 := l3 ++ [replacingCodeLog env.chainSpecName]
              match substituteCode env ext maybe_code_to_overwrite with
              | .panicked m => ⟨l4, [(header_ws_uri, header_at)], [], .panicked m⟩
              | .err e => ⟨l4, [(header_ws_uri, header_at)], [], .err e⟩
              | .ok ext1 =>
                let req : ExecutionRequest :=
                  ⟨"OffchainWorkerApi_offchain_worker", header.encoded, full_extensions⟩
                match env.state_machine_call ext1 req.method req.data req.extensions with
                | .error e => ⟨l4, [(header_ws_uri, header_at)], [req], .err (.exec e)⟩
                | .ok _ =>
                  ⟨l4 ++ [executedLog], [(header_ws_uri, header_at)], [req], .ok ()⟩

/-! Concrete fixtures used by witnesses and counterexamples. -/

def originalCode : StorageValue := [7, 7]

def candidateCode : StorageValue := [9, 9]

def extEmpty : Overlay := fun _ => none

def extWithCode : Overlay :=
  fun k => if k = well_known_keys.CODE then some originalCode else none

def extAfterSub : Overlay := Overlay.insert extWithCode well_known_keys.CODE candidateCode

def headerFix : BlockHeader := ⟨5, [1, 2, 3]⟩

def storageFix : Overlay :=
  fun k => if k = well_known_keys.CODE then some candidateCode else none

def envBase : Env :=
  ⟨"dev", fun _ => .ok (), fun _ _ => .ok (some headerFix), fun _ _ => .ok extWithCode,
    .ok storageFix, fun _ _ => .ok [0, 3, 4], fun _ _ _ _ => .ok []⟩

def envNoHeader : Env :=
  ⟨"dev", fun _ => .ok (), fun _ _ => .ok none, fun _ _ => .ok extWithCode,
    .ok storageFix, fun _ _ => .ok [0, 3, 4], fun _ _ _ _ => .ok []⟩

def envHeaderRpcErr : Env :=
  ⟨"dev", fun _ => .ok (), fun _ _ => .error "header fetch failed", fun _ _ => .ok extWithCode,
    .ok storageFix, fun _ _ => .ok [0, 3, 4], fun _ _ _ _ => .ok []⟩

def envWsFail : Env :=
  ⟨"dev", fun _ => .error "connection refused", fun _ _ => .ok (some headerFix),
    fun _ _ => .ok extWithCode, .ok storageFix, fun _ _ => .ok [0, 3, 4],
    fun _ _ _ _ => .ok []⟩

def envReadVersionFail : Env :=
  ⟨"dev", fun _ => .ok (), fun _ _ => .ok (some headerFix), fun _ _ => .ok extWithCode,
    .ok storageFix, fun _ _ => .error "invalid wasm blob", fun _ _ _ _ => .ok []⟩

def envShortVersion : Env :=
  ⟨"dev", fun _ => .ok (), fun _ _ => .ok (some headerFix), fun _ _ => .ok extWithCode,
    .ok storageFix, fun _ _ => .ok [], fun _ _ _ _ => .ok []⟩

def envBuildStorageFail : Env :=
  ⟨"dev", fun _ => .ok (), fun _ _ => .ok (some headerFix), fun _ _ => .ok extWithCode,
    .error "chain spec invalid", fun _ _ => .ok [0, 3, 4], fun _ _ _ _ => .ok []⟩

def envEmptyChainSpec : Env :=
  ⟨"dev", fun _ => .ok (), fun _ _ => .ok (some headerFix), fun _ _ => .ok extWithCode,
    .ok extEmpty, fun _ _ => .ok [0, 3, 4], fun _ _ _ _ => .ok []⟩

def cmdSnapFull : OffchainWorkerCmd := ⟨some "dd", some "wsuri", State.snap "snap.bin"⟩

def cmdLiveAt : OffchainWorkerCmd := ⟨none, none, State.live ⟨"liveuri", some "cafe"⟩⟩

def cmdLiveBoth : OffchainWorkerCmd := ⟨some "dd", none, State.live ⟨"liveuri", some "cafe"⟩⟩

def cmdNoRefSnap : OffchainWorkerCmd := ⟨none, some "wsuri", State.snap "snap.bin"⟩

def cmdSnapNoUri : OffchainWorkerCmd := ⟨some "dd", none, State.snap "snap.bin"⟩

def sharedRemote : SharedParams := ⟨Runtime.remote, 1⟩

def sharedLocal : SharedParams := ⟨Runtime.local_, 1⟩

/-! Theorems settling the claims. -/

/-- C1 counterexample: with no --header-at and a snapshot state source
    there is no usable block reference; resolution panics with the
    unwrap-style message rather than returning a typed error, so it does
    not fail with the typed error AmbiguousReference. -/
theorem c1_counterexample :
    (cmdNoRefSnap.headerAt).2 = Outcome.panicked headerAtPanicMsg
    ∧ Outcome.isErr (cmdNoRefSnap.headerAt).2 = false :=
  ⟨rfl, rfl⟩

/-- C1 (amended): header reference resolution follows the stated priority
    order — an explicit header reference is used when supplied; otherwise
    the at reference of a live state source is used; otherwise resolution
    panics (aborting the process) rather than guessing a default
    reference, instead of returning a typed AmbiguousReference error. -/
theorem c1_header_reference_priority (cmd : OffchainWorkerCmd) :
    (∀ h, cmd.header_at = some h → (cmd.headerAt).2 = hash_of h)
    ∧ (∀ ls a, cmd.header_at = none → cmd.state = State.live ls → ls.at_ = some a →
        (cmd.headerAt).2 = hash_of a)
    ∧ (cmd.header_at = none → (∀ ls, cmd.state = State.live ls → ls.at_ = none) →
        (cmd.headerAt).2 = Outcome.panicked headerAtPanicMsg) := by
  refine ⟨?_, ?_, ?_⟩
  · intro h hh
    cases hs : cmd.state <;> simp [OffchainWorkerCmd.headerAt, hh, hs]
  · intro ls a hnone hs ha
    obtain ⟨u, at?⟩ := ls
    simp only at ha
    subst ha
    simp [OffchainWorkerCmd.headerAt, hnone, hs]
  · intro hnone hlive
    cases hs : cmd.state with
    | snap p => simp [OffchainWorkerCmd.headerAt, hnone, hs]
    | live ls =>
      obtain ⟨u, at?⟩ := ls
      have h2 := hlive ⟨u, at?⟩ hs
      simp only at h2
      subst h2
      simp [OffchainWorkerCmd.headerAt, hnone, hs]

/-- C1 witness: the three branches of the priority order at concrete
    commands. -/
theorem c1_header_reference_priority_witness :
    (cmdSnapFull.headerAt).2 = hash_of "dd"
    ∧ (cmdLiveAt.headerAt).2 = hash_of "cafe"
    ∧ (cmdNoRefSnap.headerAt).2 = Outcome.panicked headerAtPanicMsg :=
  ⟨(c1_header_reference_priority cmdSnapFull).1 "dd" rfl,
   (c1_header_reference_priority cmdLiveAt).2.1 ⟨"liveuri", some "cafe"⟩ "cafe" rfl rfl rfl,
   (c1_header_reference_priority cmdNoRefSnap).2.2 rfl (by intro ls hls; cases hls)⟩

/-- C4: when an explicit header reference is supplied together with a
    live state source, resolution proceeds with the explicit reference,
    emits exactly the logged inconsistency warning, and the parse of the
    explicit reference never panics, so resolution does not hard-fail. -/
theorem c4_explicit_header_with_live (cmd : OffchainWorkerCmd) (h : String)
    (ls : LiveState) (hh : cmd.header_at = some h) (hs : cmd.state = State.live ls) :
    cmd.headerAt = ([headerAtLiveWarning], hash_of h)
    ∧ ∀ m, hash_of h ≠ Outcome.panicked m := by
  constructor
  · simp [OffchainWorkerCmd.headerAt, hh, hs]
  · intro m
    unfold hash_of
    split <;> simp

/-- C4 witness: explicit reference with a live state at a concrete
    command. -/
theorem c4_explicit_header_with_live_witness :
    cmdLiveBoth.headerAt = ([headerAtLiveWarning], hash_of "dd")
    ∧ hash_of "dd" ≠ Outcome.panicked "boom" :=
  ⟨(c4_explicit_header_with_live cmdLiveBoth "dd" ⟨"liveuri", some "cafe"⟩ rfl rfl).1,
   (c4_explicit_header_with_live cmdLiveBoth "dd" ⟨"liveuri", some "cafe"⟩ rfl rfl).2 "boom"⟩

/-- C7: code substitution writes only the reserved code key — whenever
    the substitution step returns an overlay, every key other than the
    reserved one keeps the value it had before. -/
theorem c7_substitution_only_code_key (env : Env) (ext : Overlay)
    (mc : Option StorageValue) (ext1 : Overlay) (k : StorageKey)
    (h : substituteCode env ext mc = Outcome.ok ext1)
    (hk : k ≠ well_known_keys.CODE) :
    ext1.get k = ext.get k := by
  cases mc with
  | none =>
    simp only [substituteCode] at h
    injection h with h
    subst h
    rfl
  | some c =>
    simp only [substituteCode] at h
    split at h
    · injection h with h
      subst h
      simp [Overlay.get, Overlay.insert, hk]
    · split at h
      · cases h
      · split at h
        · cases h
        · injection h with h
          subst h
          simp [Overlay.get, Overlay.insert, hk]

/-- C7 witness: a concrete substitution leaves a non-reserved key
    unchanged. -/
theorem c7_substitution_only_code_key_witness :
    Overlay.get extAfterSub [0] = Overlay.get extWithCode [0] :=
  c7_substitution_only_code_key envBase extWithCode (some candidateCode) extAfterSub [0]
    rfl (by decide)

/-- C8: with the remote runtime option no code blob is chosen for
    substitution, and substituting nothing returns the overlay unchanged,
    so the reserved code key is byte-identical before and after the code
    resolution step. -/
theorem c8_no_substitution_identity (env : Env) (ext : Overlay) :
    resolveCodeToOverwrite env Runtime.remote = Outcome.ok none
    ∧ substituteCode env ext none = Outcome.ok ext :=
  ⟨rfl, rfl⟩

/-- C9: when the source overlay has no value under the reserved code key
    and a candidate blob is supplied, substitution installs the candidate
    under the reserved key and succeeds for every environment — in
    particular for environments whose read-version operation always
    fails, showing that the version comparison is skipped and the step
    never aborts. -/
theorem c9_missing_original_code (env : Env) (ext : Overlay) (c : StorageValue)
    (h : ext.get well_known_keys.CODE = none) :
    substituteCode env ext (some c) = Outcome.ok (ext.insert well_known_keys.CODE c)
    ∧ (ext.insert well_known_keys.CODE c).get well_known_keys.CODE = some c := by
  constructor
  · simp [substituteCode, h]
  · simp [Overlay.get, Overlay.insert]

/-- C9 witness: installing the candidate into an empty overlay under an
    environment whose read-version operation always fails. -/
theorem c9_missing_original_code_witness :
    substituteCode envReadVersionFail extEmpty (some candidateCode) =
      Outcome.ok (extEmpty.insert well_known_keys.CODE candidateCode)
    ∧ (extEmpty.insert well_known_keys.CODE candidateCode).get well_known_keys.CODE =
      some candidateCode :=
  c9_missing_original_code envReadVersionFail extEmpty candidateCode rfl

/-- C10: with the local runtime option the candidate blob is the code
    entry of the chain spec genesis storage; if building that storage
    fails or the entry is absent the resolution panics, and otherwise it
    yields exactly that entry. -/
theorem c10_local_runtime_resolution (env : Env) :
    (∀ s, env.chainSpecBuildStorage = Except.error s →
      resolveCodeToOverwrite env Runtime.local_ = Outcome.panicked buildStorageUnwrapMsg)
    ∧ (∀ st, env.chainSpecBuildStorage = Except.ok st →
      st.get well_known_keys.CODE = none →
      resolveCodeToOverwrite env Runtime.local_ = Outcome.panicked chainSpecCodeUnwrapMsg)
    ∧ (∀ st c, env.chainSpecBuildStorage = Except.ok st →
      st.get well_known_keys.CODE = some c →
      resolveCodeToOverwrite env Runtime.local_ = Outcome.ok (some c)) := by
  refine ⟨?_, ?_, ?_⟩ <;> intros <;> simp [resolveCodeToOverwrite, *]

/-- C10 witness: the three local-resolution branches at concrete
    environments. -/
theorem c10_local_runtime_resolution_witness :
    resolveCodeToOverwrite envBuildStorageFail Runtime.local_ =
      Outcome.panicked buildStorageUnwrapMsg
    ∧ resolveCodeToOverwrite envEmptyChainSpec Runtime.local_ =
      Outcome.panicked chainSpecCodeUnwrapMsg
    ∧ resolveCodeToOverwrite envBase Runtime.local_ = Outcome.ok (some candidateCode) :=
  ⟨(c10_local_runtime_resolution envBuildStorageFail).1 "chain spec invalid" rfl,
   (c10_local_runtime_resolution envEmptyChainSpec).2.1 extEmpty rfl rfl,
   (c10_local_runtime_resolution envBase).2.2 storageFix candidateCode rfl rfl⟩

/-- Helper: when every stage before the invocation succeeds, the run hands
    exactly one execution request to the state-machine call, carrying the
    fixed method name, the encoded header bytes and the full extension
    set; and when that call succeeds the whole run returns ok. -/
theorem offchain_worker_success_run (env : Env) (shared : SharedParams)
    (cmd : OffchainWorkerCmd) (hh : Hash) (uu : String) (hdr : BlockHeader)
    (ext : Overlay) (mc : Option StorageValue) (ext1 : Overlay)
    (h1 : (cmd.headerAt).2 = Outcome.ok hh)
    (h2 : (cmd.headerWsUri).2 = Outcome.ok uu)
    (h3 : env.wsClient uu = Except.ok ())
    (h4 : env.chainHeader uu hh = Except.ok (some hdr))
    (h5 : env.buildExt cmd.state shared.state_version = Except.ok ext)
    (h6 : resolveCodeToOverwrite env shared.runtime = Outcome.ok mc)
    (h7 : substituteCode env ext mc = Outcome.ok ext1) :
    (offchain_worker env shared cmd).invocations =
      [⟨"OffchainWorkerApi_offchain_worker", hdr.encoded, full_extensions⟩]
    ∧ (∀ r, env.state_machine_call ext1 "OffchainWorkerApi_offchain_worker" hdr.encoded
        full_extensions = Except.ok r →
        (offchain_worker env shared cmd).result = Outcome.ok ()) := by
  constructor
  · simp only [offchain_worker, h1, h2, h3, h4, h5, h6, h7]
    rcases hsm : env.state_machine_call ext1 "OffchainWorkerApi_offchain_worker" hdr.encoded
        full_extensions with e | r <;> simp [hsm]
  · intro r hsm
    simp only [offchain_worker, h1, h2, h3, h4, h5, h6, h7, hsm]

/-- C6: whenever the run reaches the invocation step, the execution
    request uses the fixed entry-point identifier, the encoded bytes of
    the fetched header as argument and the full extension set, and the
    state-machine call is invoked exactly once. -/
theorem c6_execution_request (env : Env) (shared : SharedParams)
    (cmd : OffchainWorkerCmd) (hh : Hash) (uu : String) (hdr : BlockHeader)
    (ext : Overlay) (mc : Option StorageValue) (ext1 : Overlay)
    (h1 : (cmd.headerAt).2 = Outcome.ok hh)
    (h2 : (cmd.headerWsUri).2 = Outcome.ok uu)
    (h3 : env.wsClient uu = Except.ok ())
    (h4 : env.chainHeader uu hh = Except.ok (some hdr))
    (h5 : env.buildExt cmd.state shared.state_version = Except.ok ext)
    (h6 : resolveCodeToOverwrite env shared.runtime = Outcome.ok mc)
    (h7 : substituteCode env ext mc = Outcome.ok ext1) :
    (offchain_worker env shared cmd).invocations =
      [⟨"OffchainWorkerApi_offchain_worker", hdr.encoded, full_extensions⟩] :=
  (offchain_worker_success_run env shared cmd hh uu hdr ext mc ext1
    h1 h2 h3 h4 h5 h6 h7).1

/-- C6 witness: a concrete full run performs exactly one invocation with
    the fixed method, the encoded header and the full extension set. -/
theorem c6_execution_request_witness :
    (offchain_worker envBase sharedLocal cmdSnapFull).invocations =
      [⟨"OffchainWorkerApi_offchain_worker", headerFix.encoded, full_extensions⟩] :=
  c6_execution_request envBase sharedLocal cmdSnapFull "dd" "wsuri" headerFix
    extWithCode (some candidateCode) extAfterSub rfl rfl rfl rfl rfl rfl rfl

/-- C3 counterexample: a concrete run whose header fetch returns no block
    for the requested reference panics on the unwrap instead of returning
    a typed BlockNotFound error. -/
theorem c3_counterexample :
    (offchain_worker envNoHeader sharedRemote cmdSnapFull).result =
      Outcome.panicked headerUnwrapNoneMsg
    ∧ Outcome.isErr (offchain_worker envNoHeader sharedRemote cmdSnapFull).result = false :=
  ⟨rfl, rfl⟩

/-- C3 (amended): a failure to establish the ws channel is propagated to
    the caller as a typed error, but an absent block — and likewise an RPC
    error during the header fetch — makes the run panic on the unwrap
    instead of returning a typed BlockNotFound error. -/
theorem c3_header_fetch_failures :
    (∀ (env : Env) (shared : SharedParams) (cmd : OffchainWorkerCmd)
      (hh uu e : String),
      (cmd.headerAt).2 = Outcome.ok hh → (cmd.headerWsUri).2 = Outcome.ok uu →
      env.wsClient uu = Except.error e →
      (offchain_worker env shared cmd).result = Outcome.err (CliError.rpc e))
    ∧ (∀ (env : Env) (shared : SharedParams) (cmd : OffchainWorkerCmd)
      (hh uu : String),
      (cmd.headerAt).2 = Outcome.ok hh → (cmd.headerWsUri).2 = Outcome.ok uu →
      env.wsClient uu = Except.ok () → env.chainHeader uu hh = Except.ok none →
      (offchain_worker env shared cmd).result = Outcome.panicked headerUnwrapNoneMsg)
    ∧ (∀ (env : Env) (shared : SharedParams) (cmd : OffchainWorkerCmd)
      (hh uu e : String),
      (cmd.headerAt).2 = Outcome.ok hh → (cmd.headerWsUri).2 = Outcome.ok uu →
      env.wsClient uu = Except.ok () → env.chainHeader uu hh = Except.error e →
      (offchain_worker env shared cmd).result = Outcome.panicked headerUnwrapErrMsg) := by
  refine ⟨?_, ?_, ?_⟩ <;> intro env shared cmd hh uu <;> intros <;>
    simp [offchain_worker, *]

/-- C3 witness: the channel failure and the absent-block branches at
    concrete environments. -/
theorem c3_header_fetch_failures_witness :
    (offchain_worker envWsFail sharedRemote cmdSnapFull).result =
      Outcome.err (CliError.rpc "connection refused")
    ∧ (offchain_worker envNoHeader sharedRemote cmdLiveAt).result =
      Outcome.panicked headerUnwrapNoneMsg :=
  ⟨c3_header_fetch_failures.1 envWsFail sharedRemote cmdSnapFull "dd" "wsuri"
      "connection refused" rfl rfl rfl,
   c3_header_fetch_failures.2.1 envNoHeader sharedRemote cmdLiveAt "cafe" "liveuri"
      rfl rfl rfl rfl⟩

/-- C2 counterexample: a concrete run in which the engine fails to read a
    version descriptor out of the original blob panics on the unwrap, so
    the replay does not complete. -/
theorem c2_counterexample :
    (offchain_worker envReadVersionFail sharedLocal cmdSnapFull).result =
      Outcome.panicked readVersionUnwrapMsg
    ∧ Outcome.isErr (offchain_worker envReadVersionFail sharedLocal cmdSnapFull).result =
      false :=
  ⟨rfl, rfl⟩

/-- C2 (amended): a failing SCALE decode of the version bytes of either
    blob is harmless — the substitution step still succeeds and the run
    completes — but a failing engine read of a version descriptor is
    unwrapped and panics, aborting the replay. -/
theorem c2_version_check_behaviour :
    (∀ (env : Env) (ext : Overlay) (c oldc b1 b2 : List Nat) (d1 d2 : String),
      ext.get well_known_keys.CODE = some oldc →
      env.read_runtime_version oldc (ext.insert well_known_keys.CODE c) = Except.ok b1 →
      env.read_runtime_version c (ext.insert well_known_keys.CODE c) = Except.ok b2 →
      RuntimeVersion.decode b1 = Except.error d1 →
      RuntimeVersion.decode b2 = Except.error d2 →
      substituteCode env ext (some c) = Outcome.ok (ext.insert well_known_keys.CODE c))
    ∧ (∀ (env : Env) (ext : Overlay) (c oldc : List Nat) (e : String),
      ext.get well_known_keys.CODE = some oldc →
      env.read_runtime_version oldc (ext.insert well_known_keys.CODE c) = Except.error e →
      substituteCode env ext (some c) = Outcome.panicked readVersionUnwrapMsg)
    ∧ (∀ (env : Env) (shared : SharedParams) (cmd : OffchainWorkerCmd)
      (hh uu : String) (hdr : BlockHeader) (ext ext1 : Overlay)
      (mc : Option StorageValue) (r : List Nat),
      (cmd.headerAt).2 = Outcome.ok hh →
      (cmd.headerWsUri).2 = Outcome.ok uu →
      env.wsClient uu = Except.ok () →
      env.chainHeader uu hh = Except.ok (some hdr) →
      env.buildExt cmd.state shared.state_version = Except.ok ext →
      resolveCodeToOverwrite env shared.runtime = Outcome.ok mc →
      substituteCode env ext mc = Outcome.ok ext1 →
      env.state_machine_call ext1 "OffchainWorkerApi_offchain_worker" hdr.encoded
        full_extensions = Except.ok r →
      (offchain_worker env shared cmd).result = Outcome.ok ()) := by
  refine ⟨?_, ?_, ?_⟩
  · intro env ext c oldc b1 b2 d1 d2 hg hr1 hr2 _ _
    simp [substituteCode, hg, hr1, hr2]
  · intro env ext c oldc e hg hr1
    simp [substituteCode, hg, hr1]
  · intro env shared cmd hh uu hdr ext ext1 mc r h1 h2 h3 h4 h5 h6 h7 h8
    exact (offchain_worker_success_run env shared cmd hh uu hdr ext mc ext1
      h1 h2 h3 h4 h5 h6 h7).2 r h8

/-- C2 witness: version bytes that fail to decode do not prevent the
    substitution step nor the whole run from completing, while a failing
    engine read panics, at concrete environments. -/
theorem c2_version_check_behaviour_witness :
    substituteCode envShortVersion extWithCode (some candidateCode) =
      Outcome.ok (extWithCode.insert well_known_keys.CODE candidateCode)
    ∧ substituteCode envReadVersionFail extWithCode (some candidateCode) =
      Outcome.panicked readVersionUnwrapMsg
    ∧ (offchain_worker envShortVersion sharedLocal cmdSnapFull).result = Outcome.ok () :=
  ⟨c2_version_check_behaviour.1 envShortVersion extWithCode candidateCode originalCode
      [] [] "version descriptor decode failed, empty input"
      "version descriptor decode failed, empty input" rfl rfl rfl rfl rfl,
   c2_version_check_behaviour.2.1 envReadVersionFail extWithCode candidateCode
      originalCode "invalid wasm blob" rfl rfl,
   c2_version_check_behaviour.2.2 envShortVersion sharedLocal cmdSnapFull "dd" "wsuri"
      headerFix extWithCode extAfterSub (some candidateCode) [] rfl rfl rfl rfl rfl rfl
      rfl rfl⟩

/-- C5 counterexample: a concrete snapshot run performs a network header
    fetch over the header endpoint, and when that fetch fails the run
    panics — the header of a snapshot run is not taken from the snapshot
    image, so resolving a snapshot does require a live header fetch. -/
theorem c5_counterexample :
    (offchain_worker envBase sharedRemote cmdSnapFull).headerFetches = [("wsuri", "dd")]
    ∧ (offchain_worker envHeaderRpcErr sharedRemote cmdSnapFull).result =
      Outcome.panicked headerUnwrapErrMsg :=
  ⟨rfl, rfl⟩

/-- C5 (amended): for a snapshot state source the key-value set comes from
    the state builder, but the header is always fetched over the network:
    a snapshot run without an explicit header endpoint panics, and a
    snapshot run with one performs exactly one header fetch over it at the
    resolved reference. -/
theorem c5_snapshot_header_over_network :
    (∀ (cmd : OffchainWorkerCmd) (p : String) (hh : Hash),
      cmd.state = State.snap p → (cmd.headerAt).2 = Outcome.ok hh →
      cmd.header_ws_uri = none →
      ∀ (env : Env) (shared : SharedParams),
        (offchain_worker env shared cmd).result = Outcome.panicked headerWsUriPanicMsg)
    ∧ (∀ (env : Env) (shared : SharedParams) (cmd : OffchainWorkerCmd)
      (p u : String) (hh : Hash),
      cmd.state = State.snap p → cmd.header_ws_uri = some u →
      (cmd.headerAt).2 = Outcome.ok hh → env.wsClient u = Except.ok () →
      (offchain_worker env shared cmd).headerFetches = [(u, hh)]) := by
  constructor
  · intro cmd p hh hs h1 huri env shared
    have h2 : (cmd.headerWsUri).2 = Outcome.panicked headerWsUriPanicMsg := by
      simp [OffchainWorkerCmd.headerWsUri, huri, hs]
    simp [offchain_worker, h1, h2]
  · intro env shared cmd p u hh hs huri h1 h3
    have h2 : (cmd.headerWsUri).2 = Outcome.ok u := by
      simp [OffchainWorkerCmd.headerWsUri, huri, hs]
    simp only [offchain_worker, h1, h2, h3]
    repeat' split
    all_goals rfl

/-- C5 witness: the panicking no-endpoint branch and the recorded header
    fetch at concrete snapshot commands. -/
theorem c5_snapshot_header_over_network_witness :
    (offchain_worker envBase sharedRemote cmdSnapNoUri).result =
      Outcome.panicked headerWsUriPanicMsg
    ∧ (offchain_worker envBase sharedRemote cmdSnapFull).headerFetches = [("wsuri", "dd")] :=
  ⟨c5_snapshot_header_over_network.1 cmdSnapNoUri "snap.bin" "dd" rfl rfl rfl
      envBase sharedRemote,
   c5_snapshot_header_over_network.2 envBase sharedRemote cmdSnapFull "snap.bin"
      "wsuri" "dd" rfl rfl rfl rfl⟩
